import Mathlib

/-!
# Verification of the Wireshark plugin discovery engine (wsutil/plugins.c)

A shallow embedding of `wsutil/plugins.c`.  The native-loader, filesystem
and path-resolution collaborators (`g_module_open`, `g_module_symbol`,
`ws_dir_open`/`ws_dir_read_name`, `get_plugins_dir`, privilege queries, ...)
are modelled as fields of an environment record `Env`; the engine's own
logic (the per-file scan, the classification pass, the registries, the
orchestrator and cleanup) is translated function by function from the C
source.  Observable side effects (reports emitted through
`report_failure`/`report_warning`, handles passed to `g_module_close`,
records passed to `g_free`, and directory names passed to
`plugins_scan_dir`) are accumulated in explicit effect lists.
-/

/-- A registered plugin, mirroring `struct _plugin` in plugins.c.
The `next` pointer of the C struct is represented by membership in a
`List Plugin`; `handle` (a `GModule *`) is an abstract handle identifier;
`types` is the `guint32` classification bitmask. -/
structure Plugin where
  handle : Nat
  name : String
  version : String
  types : Nat
deriving DecidableEq, Repr

/-- A registered plugin type, mirroring `plugin_type` in plugins.c:
a category label, the classification predicate
(`plugin_check_type_callback`, which receives the opened module handle),
and the bit index `type_val` assigned at registration time. -/
structure PluginType where
  type : String
  callback : Nat → Bool
  type_val : Nat

/-- The `plugin_load_failure_mode` enumeration from wsutil/plugins.h:
verbose (`REPORT_LOAD_FAILURE`) versus silent (`DONT_REPORT_LOAD_FAILURE`)
scanning. -/
inductive plugin_load_failure_mode where
  | REPORT_LOAD_FAILURE
  | DONT_REPORT_LOAD_FAILURE
deriving DecidableEq, Repr

/-- The diagnostics emitted by plugins.c through the `report_message`
collaborator, one constructor per call site:
`report_warning("The plugin '%s' was found in multiple directories")`,
`report_failure("Couldn't load module %s: %s")`,
`report_failure("The plugin %s has no version symbol")`,
`report_failure("The plugin '%s' has no registration routines")`, and
`report_failure("At most 32 plugin types can be supported, ...")`. -/
inductive Report where
  | multipleDirsWarning (name : String)
  | couldNotLoad (filename : String)
  | noVersionSymbol (name : String)
  | noRegistrationRoutines (name : String)
  | tooManyTypes (type : String)
deriving DecidableEq, Repr

/-- The external collaborators consumed by plugins.c, as one record:

* `module_suffix` — `G_MODULE_SUFFIX`, the platform loadable-module
  extension (without the dot);
* `win32` — whether the `#if WIN32` exclusion of `nordic_ble.dll` is live;
* `dirs d` — directory enumeration: `some files` when `d` exists, is a
  directory and `ws_dir_open` succeeds (`files` in `ws_dir_read_name`
  order), `none` otherwise;
* `module_open f` — `g_module_open(f, G_MODULE_BIND_LOCAL)`: `some h` on
  success (an abstract module handle), `none` on failure;
* `module_symbol_version h` — `g_module_symbol(h, "version", &gp)`:
  `some v` when the module exports a `version` symbol with value `v`;
* `get_plugins_dir`, `get_plugins_dir_with_version`,
  `get_plugins_pers_dir_with_version` — the path-resolution collaborators
  of wsutil/filesystem.h;
* `running_in_build_directory`, `started_with_special_privs` — the build
  layout and privilege queries;
* `test_for_directory_isdir p` — whether `test_for_directory(p) == EISDIR`. -/
structure Env where
  module_suffix : String
  win32 : Bool
  dirs : String → Option (List String)
  module_open : String → Option Nat
  module_symbol_version : Nat → Option String
  get_plugins_dir : Option String
  get_plugins_dir_with_version : String
  get_plugins_pers_dir_with_version : String
  running_in_build_directory : Bool
  started_with_special_privs : Bool
  test_for_directory_isdir : String → Bool

/-- `G_DIR_SEPARATOR_S`, modelled as the POSIX separator. -/
def G_DIR_SEPARATOR_S : String := "/"

/-- The scanning state: the `plugin_list` global together with the
observable effects of the scan.  `reports` records every message handed
to `report_failure`/`report_warning`, `closed` every handle passed to
`g_module_close`, `freed` every candidate plugin record passed to
`g_free`, and `calls` the `dirname` argument of every `plugins_scan_dir`
invocation. -/
structure ScanState where
  plugin_list : List Plugin
  reports : List Report
  closed : List Nat
  freed : List Plugin
  calls : List String
deriving DecidableEq, Repr

/-- The empty initial state: `plugin_list = NULL` and no effects yet. -/
def initState : ScanState := ⟨[], [], [], [], []⟩

/-- The portion of a file name after its last `.`, i.e. `strrchr(name, '.')`
advanced past the dot: `none` when the name has no dot. -/
def after_last_dot : List Char → Option (List Char)
  | [] => none
  | c :: cs =>
    match after_last_dot cs with
    | some r => some r
    | none => if c = '.' then some cs else none

/-- The suffix filter of `plugins_scan_dir`:
`dot = strrchr(name, '.'); if (dot == NULL || strcmp(dot+1, G_MODULE_SUFFIX) != 0) continue;`. -/
def has_module_suffix (env : Env) (name : String) : Bool :=
  match after_last_dot name.data with
  | none => false
  | some ext => ext = env.module_suffix.data

/-- The `#if WIN32` exclusion in `plugins_scan_dir`:
`strncmp(name, "nordic_ble.dll", 14) == 0` compares the first 14
characters, and the literal is exactly 14 characters long. -/
def is_nordic_ble (name : String) : Bool :=
  "nordic_ble.dll".isPrefixOf name

/-- `check_if_plugin_exists`: linear search of `plugin_list` by `strcmp`
on the plugin name. -/
def check_if_plugin_exists (plugin_list : List Plugin) (name : String) : Bool :=
  plugin_list.any (fun p => p.name == name)

/-- `add_plugin`: appends the new plugin at the tail of `plugin_list`
(the C walks the forward links to the last node and links the new one). -/
def add_plugin (plugin_list : List Plugin) (new_plug : Plugin) : List Plugin :=
  plugin_list ++ [new_plug]

/-- `call_plugin_callback`: invoked once per registered type with the
candidate's mask as accumulator; when the type's predicate accepts the
module handle it sets the type's bit: `new_plug->types |= 1 << type->type_val`
(a `guint32` assignment, hence the reduction modulo `2 ^ 32`). -/
def call_plugin_callback (type : PluginType) (new_plug_types : Nat) (handle : Nat) : Nat :=
  if type.callback handle then new_plug_types ||| ((1 <<< type.type_val) % 2 ^ 32)
  else new_plug_types

/-- The classification pass
`g_slist_foreach(plugin_types, call_plugin_callback, new_plug)` starting
from `new_plug->types = 0`. -/
def classify_plugin (types : List PluginType) (handle : Nat) : Nat :=
  types.foldl (fun acc t => call_plugin_callback t acc handle) 0

/-- The candidate `plugin` record built by `plugins_scan_dir` once the
version symbol has been resolved, with its mask already filled in by the
classification pass. -/
def candidate_plugin (types : List PluginType) (name : String) (handle : Nat)
    (version : String) : Plugin :=
  { handle := handle, name := name, version := version
    types := classify_plugin types handle }

/-- The body of the `while ((file = ws_dir_read_name(dir)) != NULL)` loop
of `plugins_scan_dir`, for one directory entry `name`:
suffix filter, WIN32 exclusion, duplicate check (warning in verbose mode
only), `g_module_open` (failure reported in verbose mode only),
`version` symbol lookup (failure reported unconditionally, module
closed), classification, zero-mask discard (reported in verbose mode
only, module closed, record freed), and finally `add_plugin`. -/
def scan_file (env : Env) (types : List PluginType) (dirname : String)
    (mode : plugin_load_failure_mode) (st : ScanState) (name : String) : ScanState :=
  if has_module_suffix env name then
    if env.win32 && is_nordic_ble name then st
    else
      let filename := dirname ++ G_DIR_SEPARATOR_S ++ name
      if check_if_plugin_exists st.plugin_list name then
        { st with reports := st.reports ++
            (if mode = plugin_load_failure_mode.REPORT_LOAD_FAILURE
             then [Report.multipleDirsWarning name] else []) }
      else
        match env.module_open filename with
        | none =>
          { st with reports := st.reports ++
              (if mode = plugin_load_failure_mode.REPORT_LOAD_FAILURE
               then [Report.couldNotLoad filename] else []) }
        | some handle =>
          match env.module_symbol_version handle with
          | none =>
            { st with reports := st.reports ++ [Report.noVersionSymbol name]
                      closed := st.closed ++ [handle] }
          | some gp =>
            let new_plug := candidate_plugin types name handle gp
            if new_plug.types = 0 then
              { st with reports := st.reports ++
                  (if mode = plugin_load_failure_mode.REPORT_LOAD_FAILURE
                   then [Report.noRegistrationRoutines name] else [])
                        closed := st.closed ++ [handle]
                        freed := st.freed ++ [new_plug] }
            else
              { st with plugin_list := add_plugin st.plugin_list new_plug }
  else st

/-- `plugins_scan_dir(dirname, mode)`: records the invocation, then (when
the directory exists, is a directory, and opens) folds the per-entry scan
over the enumeration. -/
def plugins_scan_dir (env : Env) (types : List PluginType) (dirname : String)
    (mode : plugin_load_failure_mode) (st : ScanState) : ScanState :=
  let st' := { st with calls := st.calls ++ [dirname] }
  match env.dirs dirname with
  | none => st'
  | some files => files.foldl (scan_file env types dirname mode) st'

/-- The per-subdirectory path computed by the build-directory branch of
`scan_plugins`: `plugin_dir/name/.libs` when `test_for_directory` says it
is a directory, otherwise `plugin_dir/name`. -/
def build_subdir_path (env : Env) (plugin_dir name : String) : String :=
  let p1 := plugin_dir ++ G_DIR_SEPARATOR_S ++ name ++ G_DIR_SEPARATOR_S ++ ".libs"
  if env.test_for_directory_isdir p1 then p1
  else plugin_dir ++ G_DIR_SEPARATOR_S ++ name

/-- The body of `scan_plugins` (everything inside the
`if (plugin_list == NULL)` guard): resolve the primary plugin directory
(abort silently when unresolvable); in a build layout scan it and then
each of its entries other than `.` and `..` (through `build_subdir_path`),
otherwise scan the version-qualified system directory; finally, when the
process did not start with special privileges, scan the personal plugin
directory. -/
def scan_plugins_body (env : Env) (types : List PluginType)
    (mode : plugin_load_failure_mode) (st : ScanState) : ScanState :=
  match env.get_plugins_dir with
  | none => st
  | some plugin_dir =>
    let st1 :=
      if env.running_in_build_directory then
        match env.dirs plugin_dir with
        | none => st
        | some files =>
          files.foldl
            (fun s name =>
              if name = "." ∨ name = ".." then s
              else plugins_scan_dir env types (build_subdir_path env plugin_dir name) mode s)
            (plugins_scan_dir env types plugin_dir mode st)
      else
        plugins_scan_dir env types env.get_plugins_dir_with_version mode st
    if env.started_with_special_privs then st1
    else plugins_scan_dir env types env.get_plugins_pers_dir_with_version mode st1

/-- `scan_plugins(mode)`: the discovery entry point.  The body runs only
under the `if (plugin_list == NULL)` guard ("only scan for plugins once"). -/
def scan_plugins (env : Env) (types : List PluginType)
    (mode : plugin_load_failure_mode) (st : ScanState) : ScanState :=
  if st.plugin_list = [] then scan_plugins_body env types mode st else st

/-- The Type Registry state: the `plugin_types` list and the
`static guint type_val` counter of `add_plugin_type`. -/
structure TypeState where
  plugin_types : List PluginType
  type_val : Nat

/-- `add_plugin_type(type, callback)`: once `type_val` has reached 32 the
registration is rejected with a report and nothing changes; otherwise a
new `plugin_type` carrying the current counter value is appended and the
counter is incremented.  The second component collects the reports
emitted by the call. -/
def add_plugin_type (st : TypeState) (type : String) (callback : Nat → Bool) :
    TypeState × List Report :=
  if 32 ≤ st.type_val then
    (st, [Report.tooManyTypes type])
  else
    ({ plugin_types := st.plugin_types ++
         [{ type := type, callback := callback, type_val := st.type_val }]
       type_val := st.type_val + 1 }, [])

/-- The observable behaviour of `plugins_cleanup()`.  The function walks
`plugin_list`, calling `g_free(cur->name)` and `g_free(cur)` on each
node, then frees every `plugin_type` record and the `plugin_types` list
cells.  It contains no `g_module_close` call, and it never assigns to the
`plugin_list` or `plugin_types` globals, so `plugin_list` / `plugin_types`
here are the (now dangling) head-pointer values after the call —
identical to the values before it. -/
structure CleanupResult where
  plugin_list : List Plugin
  plugin_types : List PluginType
  freed_names : List String
  freed_plugin_records : List Plugin
  freed_type_records : List PluginType
  closed_handles : List Nat

/-- `plugins_cleanup()`, translated from the C: per-plugin it frees the
name string and the record; it bulk-frees the type records; it closes no
module handle and leaves both global head pointers untouched. -/
def plugins_cleanup (plugin_list : List Plugin) (plugin_types : List PluginType) :
    CleanupResult :=
  { plugin_list := plugin_list
    plugin_types := plugin_types
    freed_names := plugin_list.map (fun p => p.name)
    freed_plugin_records := plugin_list
    freed_type_records := plugin_types
    closed_handles := [] }

/-! ## Projections of the scan onto the plugin list and the call trace

`scan_file_pl`, `scan_dir_pl` and `scan_body_pl` recompute only the
`plugin_list` component of the corresponding scanning functions; they are
proof devices (the registry contents depend on nothing else of the state,
in particular not on the reporting mode), and the lemmas below show they
agree with the functions above. -/

/-- The `plugin_list` component of `scan_file`, as a function of the
incoming `plugin_list` alone. -/
def scan_file_pl (env : Env) (types : List PluginType) (dirname : String)
    (pl : List Plugin) (name : String) : List Plugin :=
  if has_module_suffix env name then
    if env.win32 && is_nordic_ble name then pl
    else if check_if_plugin_exists pl name then pl
    else
      match env.module_open (dirname ++ G_DIR_SEPARATOR_S ++ name) with
      | none => pl
      | some handle =>
        match env.module_symbol_version handle with
        | none => pl
        | some gp =>
          if (candidate_plugin types name handle gp).types = 0 then pl
          else add_plugin pl (candidate_plugin types name handle gp)
  else pl

/-- The `plugin_list` component of `plugins_scan_dir`. -/
def scan_dir_pl (env : Env) (types : List PluginType) (dirname : String)
    (pl : List Plugin) : List Plugin :=
  match env.dirs dirname with
  | none => pl
  | some files => files.foldl (scan_file_pl env types dirname) pl

/-- The `plugin_list` component of `scan_plugins_body`. -/
def scan_body_pl (env : Env) (types : List PluginType) (pl : List Plugin) :
    List Plugin :=
  match env.get_plugins_dir with
  | none => pl
  | some plugin_dir =>
    let pl1 :=
      if env.running_in_build_directory then
        match env.dirs plugin_dir with
        | none => pl
        | some files =>
          files.foldl
            (fun a name =>
              if name = "." ∨ name = ".." then a
              else scan_dir_pl env types (build_subdir_path env plugin_dir name) a)
            (scan_dir_pl env types plugin_dir pl)
      else
        scan_dir_pl env types env.get_plugins_dir_with_version pl
    if env.started_with_special_privs then pl1
    else scan_dir_pl env types env.get_plugins_pers_dir_with_version pl1

/-! ## The directories handed to the directory scanner -/

/-- The subdirectory scan paths of the build-directory branch, in
enumeration order, with `.` and `..` skipped. -/
def build_scan_paths (env : Env) (plugin_dir : String) (files : List String) :
    List String :=
  files.filterMap (fun name =>
    if name = "." ∨ name = ".." then none
    else some (build_subdir_path env plugin_dir name))

/-- The global (non-personal) directories `scan_plugins` hands to
`plugins_scan_dir`, in order. -/
def global_scan_dirs (env : Env) : List String :=
  match env.get_plugins_dir with
  | none => []
  | some plugin_dir =>
    if env.running_in_build_directory then
      match env.dirs plugin_dir with
      | none => []
      | some files => plugin_dir :: build_scan_paths env plugin_dir files
    else [env.get_plugins_dir_with_version]

/-- All directories `scan_plugins` hands to `plugins_scan_dir`, in order:
the global ones, then — only for a process that did not start with
special privileges — the personal plugin directory. -/
def scan_dirs (env : Env) : List String :=
  match env.get_plugins_dir with
  | none => []
  | some _ =>
    global_scan_dirs env ++
      (if env.started_with_special_privs then []
       else [env.get_plugins_pers_dir_with_version])


/-! ## Name uniqueness of the plugin registry -/

/-- No two entries of the registry share a name. -/
def plugin_names_unique (l : List Plugin) : Prop :=
  l.Pairwise (fun p q => p.name ≠ q.name)

/-! ## Concrete example environments and states

Small closed instances used to evaluate the engine on concrete inputs
(for counterexamples and witnesses). -/

/-- An installed-layout environment whose directories are all empty or
absent: the primary directory resolves to `p`, the version-qualified
system directory is `pv`, the personal directory is `uv`, and no
directory enumerates. -/
def env_empty : Env :=
  { module_suffix := "so"
    win32 := false
    dirs := fun _ => none
    module_open := fun _ => none
    module_symbol_version := fun _ => none
    get_plugins_dir := some "p"
    get_plugins_dir_with_version := "pv"
    get_plugins_pers_dir_with_version := "uv"
    running_in_build_directory := false
    started_with_special_privs := false
    test_for_directory_isdir := fun _ => false }

/-- Like `env_empty`, but the process started with special privileges. -/
def env_priv : Env :=
  { env_empty with started_with_special_privs := true }

/-- An environment with one directory `d` holding one candidate `a.so`
that opens as module handle `1` but exports no `version` symbol. -/
def env_noversion : Env :=
  { env_empty with
    dirs := fun s => if s = "d" then some ["a.so"] else none
    module_open := fun s => if s = "d/a.so" then some 1 else none }

/-- An environment with one directory `d` holding one candidate `a.so`
that opens as module handle `1` and exports `version = "1.0"`. -/
def env_ok : Env :=
  { env_noversion with
    module_symbol_version := fun h => if h = 1 then some "1.0" else none }

/-- A single registered type, at bit index 0, whose predicate accepts
every module. -/
def types_one : List PluginType :=
  [{ type := "dissector", callback := fun _ => true, type_val := 0 }]

/-- A scan state whose registry already holds a plugin named `a.so`. -/
def st_dup : ScanState :=
  { plugin_list := [{ handle := 1, name := "a.so", version := "1.0", types := 1 }]
    reports := [], closed := [], freed := [], calls := [] }

/-- A type-registry state in which 32 types are already registered and
the static counter has reached 32. -/
def st32 : TypeState :=
  { plugin_types := (List.range 32).map
      (fun i => { type := "t", callback := fun _ => false, type_val := i })
    type_val := 32 }


lemma scan_file_plugin_list (env : Env) (types : List PluginType) (dirname : String)
    (mode : plugin_load_failure_mode) (st : ScanState) (name : String) :
    (scan_file env types dirname mode st name).plugin_list
      = scan_file_pl env types dirname st.plugin_list name := by
  unfold scan_file scan_file_pl
  by_cases h1 : has_module_suffix env name
  · by_cases h2 : (env.win32 && is_nordic_ble name : Bool)
    · simp [h1, h2]
    · by_cases h3 : check_if_plugin_exists st.plugin_list name
      · simp [h1, h2, h3]
      · cases h4 : env.module_open (dirname ++ G_DIR_SEPARATOR_S ++ name) with
        | none => simp [h1, h2, h3, h4]
        | some handle =>
          cases h5 : env.module_symbol_version handle with
          | none => simp [h1, h2, h3, h4, h5]
          | some gp =>
            by_cases h6 : (candidate_plugin types name handle gp).types = 0
            · simp [h1, h2, h3, h4, h5, h6]
            · simp [h1, h2, h3, h4, h5, h6]
  · simp [h1]

lemma scan_file_calls (env : Env) (types : List PluginType) (dirname : String)
    (mode : plugin_load_failure_mode) (st : ScanState) (name : String) :
    (scan_file env types dirname mode st name).calls = st.calls := by
  unfold scan_file
  by_cases h1 : has_module_suffix env name
  · by_cases h2 : (env.win32 && is_nordic_ble name : Bool)
    · simp [h1, h2]
    · by_cases h3 : check_if_plugin_exists st.plugin_list name
      · simp [h1, h2, h3]
      · cases h4 : env.module_open (dirname ++ G_DIR_SEPARATOR_S ++ name) with
        | none => simp [h1, h2, h3, h4]
        | some handle =>
          cases h5 : env.module_symbol_version handle with
          | none => simp [h1, h2, h3, h4, h5]
          | some gp =>
            by_cases h6 : (candidate_plugin types name handle gp).types = 0
            · simp [h1, h2, h3, h4, h5, h6]
            · simp [h1, h2, h3, h4, h5, h6]
  · simp [h1]

lemma foldl_scan_file_plugin_list (env : Env) (types : List PluginType)
    (dirname : String) (mode : plugin_load_failure_mode) :
    ∀ (files : List String) (st : ScanState),
      (files.foldl (scan_file env types dirname mode) st).plugin_list
        = files.foldl (scan_file_pl env types dirname) st.plugin_list := by
  intro files
  induction files with
  | nil => intro st; rfl
  | cons f fs ih =>
    intro st
    simp only [List.foldl_cons]
    rw [ih, scan_file_plugin_list]

lemma foldl_scan_file_calls (env : Env) (types : List PluginType)
    (dirname : String) (mode : plugin_load_failure_mode) :
    ∀ (files : List String) (st : ScanState),
      (files.foldl (scan_file env types dirname mode) st).calls = st.calls := by
  intro files
  induction files with
  | nil => intro st; rfl
  | cons f fs ih =>
    intro st
    simp only [List.foldl_cons]
    rw [ih, scan_file_calls]

lemma plugins_scan_dir_plugin_list (env : Env) (types : List PluginType)
    (dirname : String) (mode : plugin_load_failure_mode) (st : ScanState) :
    (plugins_scan_dir env types dirname mode st).plugin_list
      = scan_dir_pl env types dirname st.plugin_list := by
  unfold plugins_scan_dir scan_dir_pl
  cases h : env.dirs dirname with
  | none => simp [h]
  | some files => simp [h, foldl_scan_file_plugin_list]

lemma plugins_scan_dir_calls (env : Env) (types : List PluginType)
    (dirname : String) (mode : plugin_load_failure_mode) (st : ScanState) :
    (plugins_scan_dir env types dirname mode st).calls = st.calls ++ [dirname] := by
  unfold plugins_scan_dir
  cases h : env.dirs dirname with
  | none => simp [h]
  | some files => simp [h, foldl_scan_file_calls]

lemma scan_plugins_body_plugin_list (env : Env) (types : List PluginType)
    (mode : plugin_load_failure_mode) (st : ScanState) :
    (scan_plugins_body env types mode st).plugin_list
      = scan_body_pl env types st.plugin_list := by
  unfold scan_plugins_body scan_body_pl
  cases hd : env.get_plugins_dir with
  | none => simp
  | some plugin_dir =>
    simp only
    have hfold : ∀ (files : List String) (s : ScanState),
        ((files.foldl
            (fun s name =>
              if name = "." ∨ name = ".." then s
              else plugins_scan_dir env types (build_subdir_path env plugin_dir name) mode s)
            s)).plugin_list
          = files.foldl
              (fun a name =>
                if name = "." ∨ name = ".." then a
                else scan_dir_pl env types (build_subdir_path env plugin_dir name) a)
              s.plugin_list := by
      intro files
      induction files with
      | nil => intro s; rfl
      | cons f fs ih =>
        intro s
        simp only [List.foldl_cons]
        rw [ih]
        by_cases hskip : f = "." ∨ f = ".."
        · simp [hskip]
        · simp [hskip, plugins_scan_dir_plugin_list]
    by_cases hb : env.running_in_build_directory
    · cases hl : env.dirs plugin_dir with
      | none =>
        by_cases hp : env.started_with_special_privs
        · simp [hb, hl, hp]
        · simp [hb, hl, hp, plugins_scan_dir_plugin_list]
      | some files =>
        by_cases hp : env.started_with_special_privs
        · simp [hb, hl, hp, hfold, plugins_scan_dir_plugin_list]
        · simp [hb, hl, hp, hfold, plugins_scan_dir_plugin_list]
    · by_cases hp : env.started_with_special_privs
      · simp [hb, hp, plugins_scan_dir_plugin_list]
      · simp [hb, hp, plugins_scan_dir_plugin_list]

lemma scan_plugins_plugin_list (env : Env) (types : List PluginType)
    (mode : plugin_load_failure_mode) (st : ScanState) :
    (scan_plugins env types mode st).plugin_list
      = if st.plugin_list = [] then scan_body_pl env types st.plugin_list
        else st.plugin_list := by
  unfold scan_plugins
  by_cases h : st.plugin_list = []
  · simp [h, scan_plugins_body_plugin_list]
  · simp [h]

/-! ## Classification-mask arithmetic -/

lemma classify_plugin_foldl_testBit (handle b : Nat) :
    ∀ (types : List PluginType), (∀ t ∈ types, t.type_val < 32) →
      ∀ acc : Nat,
        (types.foldl (fun a t => call_plugin_callback t a handle) acc).testBit b
          = (acc.testBit b || types.any (fun t => decide (t.type_val = b) && t.callback handle)) := by
  intro types
  induction types with
  | nil => intro _ acc; simp
  | cons t ts ih =>
    intro h acc
    have ht : t.type_val < 32 := h t (List.mem_cons_self t ts)
    have hts : ∀ u ∈ ts, u.type_val < 32 := fun u hu => h u (List.mem_cons_of_mem t hu)
    simp only [List.foldl_cons, List.any_cons]
    rw [ih hts]
    unfold call_plugin_callback
    by_cases hc : t.callback handle
    · have hmod : (1 <<< t.type_val) % 2 ^ 32 = 2 ^ t.type_val := by
        rw [Nat.shiftLeft_eq, one_mul]
        exact Nat.mod_eq_of_lt (Nat.pow_lt_pow_right (by norm_num) ht)
      rw [if_pos hc, hmod]
      rw [Nat.testBit_or, Nat.testBit_two_pow]
      simp [hc, Bool.or_assoc]
    · simp [hc]

lemma classify_plugin_testBit (types : List PluginType) (handle b : Nat)
    (h32 : ∀ t ∈ types, t.type_val < 32) :
    (classify_plugin types handle).testBit b = true
      ↔ ∃ t ∈ types, t.type_val = b ∧ t.callback handle = true := by
  unfold classify_plugin
  rw [classify_plugin_foldl_testBit handle b types h32 0]
  simp [List.any_eq_true]

/-! ## Branch lemmas for the per-file scan -/

lemma scan_file_duplicate (env : Env) (types : List PluginType) (dirname : String)
    (mode : plugin_load_failure_mode) (st : ScanState) (name : String)
    (h1 : has_module_suffix env name = true)
    (h2 : (env.win32 && is_nordic_ble name) = false)
    (h3 : check_if_plugin_exists st.plugin_list name = true) :
    scan_file env types dirname mode st name
      = { st with reports := st.reports ++
            (if mode = plugin_load_failure_mode.REPORT_LOAD_FAILURE
             then [Report.multipleDirsWarning name] else []) } := by
  unfold scan_file
  simp [h1, h2, h3]

lemma scan_file_no_version (env : Env) (types : List PluginType) (dirname : String)
    (mode : plugin_load_failure_mode) (st : ScanState) (name : String) (handle : Nat)
    (h1 : has_module_suffix env name = true)
    (h2 : (env.win32 && is_nordic_ble name) = false)
    (h3 : check_if_plugin_exists st.plugin_list name = false)
    (h4 : env.module_open (dirname ++ G_DIR_SEPARATOR_S ++ name) = some handle)
    (h5 : env.module_symbol_version handle = none) :
    scan_file env types dirname mode st name
      = { st with reports := st.reports ++ [Report.noVersionSymbol name]
                  closed := st.closed ++ [handle] } := by
  unfold scan_file
  simp [h1, h2, h3, h4, h5]

lemma scan_file_zero_types (env : Env) (types : List PluginType) (dirname : String)
    (mode : plugin_load_failure_mode) (st : ScanState) (name : String)
    (handle : Nat) (ver : String)
    (h1 : has_module_suffix env name = true)
    (h2 : (env.win32 && is_nordic_ble name) = false)
    (h3 : check_if_plugin_exists st.plugin_list name = false)
    (h4 : env.module_open (dirname ++ G_DIR_SEPARATOR_S ++ name) = some handle)
    (h5 : env.module_symbol_version handle = some ver)
    (h6 : classify_plugin types handle = 0) :
    scan_file env types dirname mode st name
      = { st with reports := st.reports ++
            (if mode = plugin_load_failure_mode.REPORT_LOAD_FAILURE
             then [Report.noRegistrationRoutines name] else [])
                  closed := st.closed ++ [handle]
                  freed := st.freed ++ [candidate_plugin types name handle ver] } := by
  unfold scan_file
  simp [h1, h2, h3, h4, h5, candidate_plugin, h6]

lemma scan_file_accept (env : Env) (types : List PluginType) (dirname : String)
    (mode : plugin_load_failure_mode) (st : ScanState) (name : String)
    (handle : Nat) (ver : String)
    (h1 : has_module_suffix env name = true)
    (h2 : (env.win32 && is_nordic_ble name) = false)
    (h3 : check_if_plugin_exists st.plugin_list name = false)
    (h4 : env.module_open (dirname ++ G_DIR_SEPARATOR_S ++ name) = some handle)
    (h5 : env.module_symbol_version handle = some ver)
    (h6 : classify_plugin types handle ≠ 0) :
    scan_file env types dirname mode st name
      = { st with plugin_list :=
            add_plugin st.plugin_list (candidate_plugin types name handle ver) } := by
  unfold scan_file
  simp [h1, h2, h3, h4, h5, candidate_plugin, h6]

lemma check_if_plugin_exists_eq_false (l : List Plugin) (name : String) :
    check_if_plugin_exists l name = false ↔ ∀ p ∈ l, p.name ≠ name := by
  unfold check_if_plugin_exists
  simp [List.any_eq_false]

lemma plugin_names_unique_append (l : List Plugin) (p : Plugin)
    (hu : plugin_names_unique l)
    (hnew : check_if_plugin_exists l p.name = false) :
    plugin_names_unique (l ++ [p]) := by
  rw [check_if_plugin_exists_eq_false] at hnew
  unfold plugin_names_unique at *
  rw [List.pairwise_append]
  refine ⟨hu, List.pairwise_singleton _ _, ?_⟩
  intro a ha b hb
  rw [List.mem_singleton] at hb
  subst hb
  exact hnew a ha

lemma scan_file_pl_unique (env : Env) (types : List PluginType) (dirname : String)
    (pl : List Plugin) (name : String) (hu : plugin_names_unique pl) :
    plugin_names_unique (scan_file_pl env types dirname pl name) := by
  unfold scan_file_pl
  by_cases h1 : has_module_suffix env name
  · by_cases h2 : (env.win32 && is_nordic_ble name : Bool)
    · simpa [h1, h2] using hu
    · by_cases h3 : check_if_plugin_exists pl name
      · simpa [h1, h2, h3] using hu
      · cases h4 : env.module_open (dirname ++ G_DIR_SEPARATOR_S ++ name) with
        | none => simpa [h1, h2, h3, h4] using hu
        | some handle =>
          cases h5 : env.module_symbol_version handle with
          | none => simpa [h1, h2, h3, h4, h5] using hu
          | some gp =>
            by_cases h6 : (candidate_plugin types name handle gp).types = 0
            · simpa [h1, h2, h3, h4, h5, h6] using hu
            · have hname : (candidate_plugin types name handle gp).name = name := rfl
              have := plugin_names_unique_append pl (candidate_plugin types name handle gp)
                hu (by rw [hname]; exact Bool.of_not_eq_true h3)
              simpa [h1, h2, h3, h4, h5, h6, add_plugin] using this
  · simpa [h1] using hu

lemma foldl_scan_file_pl_unique (env : Env) (types : List PluginType)
    (dirname : String) :
    ∀ (files : List String) (pl : List Plugin), plugin_names_unique pl →
      plugin_names_unique (files.foldl (scan_file_pl env types dirname) pl) := by
  intro files
  induction files with
  | nil => intro pl hu; exact hu
  | cons f fs ih =>
    intro pl hu
    simp only [List.foldl_cons]
    exact ih _ (scan_file_pl_unique env types dirname pl f hu)

lemma scan_dir_pl_unique (env : Env) (types : List PluginType) (dirname : String)
    (pl : List Plugin) (hu : plugin_names_unique pl) :
    plugin_names_unique (scan_dir_pl env types dirname pl) := by
  unfold scan_dir_pl
  cases h : env.dirs dirname with
  | none => exact hu
  | some files => exact foldl_scan_file_pl_unique env types dirname files pl hu

lemma scan_body_pl_unique (env : Env) (types : List PluginType)
    (pl : List Plugin) (hu : plugin_names_unique pl) :
    plugin_names_unique (scan_body_pl env types pl) := by
  unfold scan_body_pl
  cases hd : env.get_plugins_dir with
  | none => exact hu
  | some plugin_dir =>
    simp only
    have hfold : ∀ (files : List String) (a : List Plugin), plugin_names_unique a →
        plugin_names_unique
          (files.foldl
            (fun a name =>
              if name = "." ∨ name = ".." then a
              else scan_dir_pl env types (build_subdir_path env plugin_dir name) a)
            a) := by
      intro files
      induction files with
      | nil => intro a ha; exact ha
      | cons f fs ih =>
        intro a ha
        simp only [List.foldl_cons]
        by_cases hskip : f = "." ∨ f = ".."
        · rw [if_pos hskip]; exact ih a ha
        · rw [if_neg hskip]
          exact ih _ (scan_dir_pl_unique env types _ a ha)
    have h1 : plugin_names_unique
        (if env.running_in_build_directory then
          match env.dirs plugin_dir with
          | none => pl
          | some files =>
            files.foldl
              (fun a name =>
                if name = "." ∨ name = ".." then a
                else scan_dir_pl env types (build_subdir_path env plugin_dir name) a)
              (scan_dir_pl env types plugin_dir pl)
         else scan_dir_pl env types env.get_plugins_dir_with_version pl) := by
      by_cases hb : env.running_in_build_directory
      · cases hl : env.dirs plugin_dir with
        | none => simpa [hb, hl] using hu
        | some files =>
          simpa [hb, hl] using
            hfold files _ (scan_dir_pl_unique env types plugin_dir pl hu)
      · simpa [hb] using scan_dir_pl_unique env types _ pl hu
    by_cases hp : env.started_with_special_privs
    · simpa [hp] using h1
    · simpa [hp] using scan_dir_pl_unique env types _ _ h1

lemma scan_plugins_unique (env : Env) (types : List PluginType)
    (mode : plugin_load_failure_mode) (st : ScanState)
    (hu : plugin_names_unique st.plugin_list) :
    plugin_names_unique (scan_plugins env types mode st).plugin_list := by
  rw [scan_plugins_plugin_list]
  by_cases h : st.plugin_list = []
  · simpa [h] using scan_body_pl_unique env types st.plugin_list hu
  · simpa [h] using hu

lemma scan_plugins_body_calls (env : Env) (types : List PluginType)
    (mode : plugin_load_failure_mode) (st : ScanState) :
    (scan_plugins_body env types mode st).calls = st.calls ++ scan_dirs env := by
  unfold scan_plugins_body scan_dirs global_scan_dirs
  cases hd : env.get_plugins_dir with
  | none => simp
  | some plugin_dir =>
    simp only
    have hfold : ∀ (files : List String) (s : ScanState),
        ((files.foldl
            (fun s name =>
              if name = "." ∨ name = ".." then s
              else plugins_scan_dir env types (build_subdir_path env plugin_dir name) mode s)
            s)).calls
          = s.calls ++ build_scan_paths env plugin_dir files := by
      intro files
      induction files with
      | nil => intro s; simp [build_scan_paths]
      | cons f fs ih =>
        intro s
        simp only [List.foldl_cons]
        rw [ih]
        by_cases hskip : f = "." ∨ f = ".."
        · simp [hskip, build_scan_paths]
        · simp [hskip, build_scan_paths, plugins_scan_dir_calls]
    by_cases hb : env.running_in_build_directory
    · cases hl : env.dirs plugin_dir with
      | none =>
        by_cases hp : env.started_with_special_privs
        · simp [hb, hl, hp]
        · simp [hb, hl, hp, plugins_scan_dir_calls]
      | some files =>
        by_cases hp : env.started_with_special_privs
        · simp [hb, hl, hp, hfold, plugins_scan_dir_calls]
        · simp [hb, hl, hp, hfold, plugins_scan_dir_calls]
    · by_cases hp : env.started_with_special_privs
      · simp [hb, hp, plugins_scan_dir_calls]
      · simp [hb, hp, plugins_scan_dir_calls]

lemma scan_plugins_calls (env : Env) (types : List PluginType)
    (mode : plugin_load_failure_mode) (st : ScanState) :
    (scan_plugins env types mode st).calls
      = st.calls ++ (if st.plugin_list = [] then scan_dirs env else []) := by
  unfold scan_plugins
  by_cases h : st.plugin_list = []
  · simp [h, scan_plugins_body_calls]
  · simp [h]

/-! ## Claim theorems -/

/-- C1 counterexample: in silent mode (`DONT_REPORT_LOAD_FAILURE`),
scanning a directory holding a module that opens but lacks the `version`
symbol still emits the "has no version symbol" failure report —
`plugins_scan_dir` calls `report_failure` unconditionally at that point,
so the claim's "in silent mode no report is emitted" is false. -/
theorem c1_silent_mode_still_reports_cex :
    (plugins_scan_dir env_noversion [] "d"
        plugin_load_failure_mode.DONT_REPORT_LOAD_FAILURE initState).reports
      = [Report.noVersionSymbol "a.so"] := by decide

/-- C1 amended: when a candidate opens but lacks the `version` symbol,
the module is closed and the file skipped (only `reports` and `closed`
change), and the failure is reported in **both** modes, not only in
verbose mode. -/
theorem c1_missing_version_closed_skipped_reported (env : Env)
    (types : List PluginType) (dirname : String)
    (mode : plugin_load_failure_mode) (st : ScanState) (name : String) (handle : Nat)
    (h1 : has_module_suffix env name = true)
    (h2 : (env.win32 && is_nordic_ble name) = false)
    (h3 : check_if_plugin_exists st.plugin_list name = false)
    (h4 : env.module_open (dirname ++ G_DIR_SEPARATOR_S ++ name) = some handle)
    (h5 : env.module_symbol_version handle = none) :
    scan_file env types dirname mode st name
      = { st with reports := st.reports ++ [Report.noVersionSymbol name]
                  closed := st.closed ++ [handle] } :=
  scan_file_no_version env types dirname mode st name handle h1 h2 h3 h4 h5

/-- C1 witness: the amended theorem at the concrete no-version module in
silent mode. -/
theorem c1_missing_version_witness :
    scan_file env_noversion [] "d" plugin_load_failure_mode.DONT_REPORT_LOAD_FAILURE
        initState "a.so"
      = { initState with reports := initState.reports ++ [Report.noVersionSymbol "a.so"]
                         closed := initState.closed ++ [1] } :=
  c1_missing_version_closed_skipped_reported env_noversion [] "d"
    plugin_load_failure_mode.DONT_REPORT_LOAD_FAILURE initState "a.so" 1
    (by decide) (by decide) (by decide) (by decide) (by decide)

/-- C2 counterexample: `plugins_cleanup` closes no module handle — for a
registry holding one plugin with handle 7, the set of handles passed to
`g_module_close` during cleanup is empty, so "for every plugin in the
registry at cleanup time, its opened module handle is closed during
cleanup" is false. -/
theorem c2_cleanup_never_closes_cex :
    ¬ (∀ p ∈ [({ handle := 7, name := "x", version := "1", types := 1 } : Plugin)],
        p.handle ∈ (plugins_cleanup
          [{ handle := 7, name := "x", version := "1", types := 1 }] []).closed_handles) := by
  decide

/-- C2 amended: `plugins_cleanup` releases every plugin's memory (the
name string and the record) and every type record, but it closes no
module handle (`g_module_close` is never called during cleanup). -/
theorem c2_cleanup_frees_memory_only :
    ∀ (pl : List Plugin) (pt : List PluginType),
      (plugins_cleanup pl pt).freed_names = pl.map (fun p => p.name)
      ∧ (plugins_cleanup pl pt).freed_plugin_records = pl
      ∧ (plugins_cleanup pl pt).freed_type_records = pt
      ∧ (plugins_cleanup pl pt).closed_handles = [] :=
  fun _ _ => ⟨rfl, rfl, rfl, rfl⟩

/-- C3 counterexample: with every scanned directory empty or absent, the
first `scan_plugins` call registers nothing, so `plugin_list` stays
`NULL` and a second call performs the whole directory-scanning pass
again: after two calls the scanner has been handed the directories
`pv, uv` twice, refuting "the directory-scanning pass runs at most
once no matter how many times scan_plugins is invoked". -/
theorem c3_rescan_after_empty_scan_cex :
    (scan_plugins env_empty [] plugin_load_failure_mode.REPORT_LOAD_FAILURE
        (scan_plugins env_empty [] plugin_load_failure_mode.REPORT_LOAD_FAILURE
          initState)).calls
      = ["pv", "uv", "pv", "uv"] := by decide

/-- C3 amended: `scan_plugins` is a no-op whenever the Plugin Registry is
already non-empty (so after any scan that registered at least one plugin
the pass never runs again); but when a scan leaves the registry empty, a
later call scans the directories again. -/
theorem c3_scan_plugins_noop_on_nonempty (env : Env) (types : List PluginType)
    (mode : plugin_load_failure_mode) (st : ScanState)
    (h : st.plugin_list ≠ []) :
    scan_plugins env types mode st = st := by
  unfold scan_plugins
  rw [if_neg h]

/-- C3 witness: a call on a state with a non-empty registry changes
nothing. -/
theorem c3_scan_plugins_noop_witness :
    scan_plugins env_empty [] plugin_load_failure_mode.REPORT_LOAD_FAILURE st_dup
      = st_dup :=
  c3_scan_plugins_noop_on_nonempty env_empty []
    plugin_load_failure_mode.REPORT_LOAD_FAILURE st_dup (by decide)

/-- C4: once the static counter of `add_plugin_type` has reached 32
(equivalently, 32 types are registered — the counter equals the registry
size, an invariant the first conjunct shows is preserved), every further
registration returns the state unchanged (names, predicates, bit indices
and order untouched) and emits only the "at most 32 plugin types"
failure report. -/
theorem c4_add_plugin_type_exhaustion :
    (∀ (st : TypeState) (name : String) (cb : Nat → Bool),
        st.type_val = st.plugin_types.length →
        (add_plugin_type st name cb).1.type_val
          = (add_plugin_type st name cb).1.plugin_types.length)
    ∧ (∀ (st : TypeState) (name : String) (cb : Nat → Bool),
        st.type_val = st.plugin_types.length →
        32 ≤ st.plugin_types.length →
        add_plugin_type st name cb = (st, [Report.tooManyTypes name])) := by
  constructor
  · intro st name cb hinv
    unfold add_plugin_type
    by_cases h : 32 ≤ st.type_val
    · rw [if_pos h]
      exact hinv
    · rw [if_neg h]
      simpa using hinv
  · intro st name cb hinv h32
    unfold add_plugin_type
    rw [if_pos (hinv ▸ h32)]

/-- C4 witness: the 33rd registration attempt on a concrete full
registry is rejected without change. -/
theorem c4_add_plugin_type_exhaustion_witness :
    add_plugin_type st32 "extra" (fun _ => false)
      = (st32, [Report.tooManyTypes "extra"]) :=
  c4_add_plugin_type_exhaustion.2 st32 "extra" (fun _ => false)
    (by decide) (by decide)

/-- C5: for a candidate that passes the version-symbol check, bit `b` of
its classification mask is set iff some registered type with
`type_val = b` had its predicate return true on the module's handle
(the mask is `classify_plugin`, which starts at 0 and is changed only by
predicate results); and the scan appends exactly that classified
candidate (or discards it when the mask is zero). -/
theorem c5_classification_soundness (env : Env) (types : List PluginType)
    (dirname : String) (mode : plugin_load_failure_mode) (st : ScanState)
    (name : String) (handle : Nat) (ver : String)
    (h32 : ∀ t ∈ types, t.type_val < 32)
    (h1 : has_module_suffix env name = true)
    (h2 : (env.win32 && is_nordic_ble name) = false)
    (h3 : check_if_plugin_exists st.plugin_list name = false)
    (h4 : env.module_open (dirname ++ G_DIR_SEPARATOR_S ++ name) = some handle)
    (h5 : env.module_symbol_version handle = some ver) :
    (∀ b : Nat,
        (candidate_plugin types name handle ver).types.testBit b = true
          ↔ ∃ t ∈ types, t.type_val = b ∧ t.callback handle = true)
    ∧ (scan_file env types dirname mode st name).plugin_list
        = (if (candidate_plugin types name handle ver).types = 0 then st.plugin_list
           else st.plugin_list ++ [candidate_plugin types name handle ver]) := by
  constructor
  · intro b
    exact classify_plugin_testBit types handle b h32
  · by_cases h6 : classify_plugin types handle = 0
    · rw [scan_file_zero_types env types dirname mode st name handle ver h1 h2 h3 h4 h5 h6]
      simp [candidate_plugin, h6]
    · rw [scan_file_accept env types dirname mode st name handle ver h1 h2 h3 h4 h5 h6]
      simp [candidate_plugin, h6, add_plugin]

/-- C5 witness: one all-accepting type at bit 0, one concrete module. -/
theorem c5_classification_soundness_witness :
    (∀ b : Nat,
        (candidate_plugin types_one "a.so" 1 "1.0").types.testBit b = true
          ↔ ∃ t ∈ types_one, t.type_val = b ∧ t.callback 1 = true)
    ∧ (scan_file env_ok types_one "d" plugin_load_failure_mode.REPORT_LOAD_FAILURE
          initState "a.so").plugin_list
        = (if (candidate_plugin types_one "a.so" 1 "1.0").types = 0
           then initState.plugin_list
           else initState.plugin_list ++ [candidate_plugin types_one "a.so" 1 "1.0"]) :=
  c5_classification_soundness env_ok types_one "d"
    plugin_load_failure_mode.REPORT_LOAD_FAILURE initState "a.so" 1 "1.0"
    (by decide) (by decide) (by decide) (by decide) (by decide) (by decide)

/-- C6: name uniqueness is an invariant of the registry — any
`scan_plugins` call preserves pairwise-distinct names — and a directory
entry whose name is already registered is skipped outright (no load
attempt, no append; the state changes only by the duplicate warning,
emitted exactly in verbose mode). -/
theorem c6_registry_name_uniqueness :
    (∀ (env : Env) (types : List PluginType) (mode : plugin_load_failure_mode)
        (st : ScanState), plugin_names_unique st.plugin_list →
        plugin_names_unique (scan_plugins env types mode st).plugin_list)
    ∧ (∀ (env : Env) (types : List PluginType) (dirname : String)
        (mode : plugin_load_failure_mode) (st : ScanState) (name : String),
        has_module_suffix env name = true →
        (env.win32 && is_nordic_ble name) = false →
        check_if_plugin_exists st.plugin_list name = true →
        scan_file env types dirname mode st name
          = { st with reports := st.reports ++
              (if mode = plugin_load_failure_mode.REPORT_LOAD_FAILURE
               then [Report.multipleDirsWarning name] else []) }) :=
  ⟨fun env types mode st hu => scan_plugins_unique env types mode st hu,
   fun env types dirname mode st name h1 h2 h3 =>
     scan_file_duplicate env types dirname mode st name h1 h2 h3⟩

/-- C6 witness: uniqueness preserved on a concrete scan, and a concrete
duplicate file is skipped with a warning in verbose mode. -/
theorem c6_registry_name_uniqueness_witness :
    plugin_names_unique
      (scan_plugins env_empty [] plugin_load_failure_mode.REPORT_LOAD_FAILURE
        initState).plugin_list
    ∧ scan_file env_noversion [] "d" plugin_load_failure_mode.REPORT_LOAD_FAILURE
        st_dup "a.so"
      = { st_dup with reports := st_dup.reports ++ [Report.multipleDirsWarning "a.so"] } :=
  ⟨c6_registry_name_uniqueness.1 env_empty [] plugin_load_failure_mode.REPORT_LOAD_FAILURE
      initState (by simp [plugin_names_unique, initState]),
   by
     have h := c6_registry_name_uniqueness.2 env_noversion [] "d"
       plugin_load_failure_mode.REPORT_LOAD_FAILURE st_dup "a.so"
       (by decide) (by decide) (by decide)
     simpa using h⟩

/-- C7: a candidate whose classification mask is zero after the full
pass is never appended — the registry is unchanged — while its handle is
closed and its record freed. -/
theorem c7_zero_type_discard (env : Env) (types : List PluginType)
    (dirname : String) (mode : plugin_load_failure_mode) (st : ScanState)
    (name : String) (handle : Nat) (ver : String)
    (h1 : has_module_suffix env name = true)
    (h2 : (env.win32 && is_nordic_ble name) = false)
    (h3 : check_if_plugin_exists st.plugin_list name = false)
    (h4 : env.module_open (dirname ++ G_DIR_SEPARATOR_S ++ name) = some handle)
    (h5 : env.module_symbol_version handle = some ver)
    (h6 : classify_plugin types handle = 0) :
    (scan_file env types dirname mode st name).plugin_list = st.plugin_list
    ∧ (scan_file env types dirname mode st name).closed = st.closed ++ [handle]
    ∧ (scan_file env types dirname mode st name).freed
        = st.freed ++ [candidate_plugin types name handle ver] := by
  rw [scan_file_zero_types env types dirname mode st name handle ver h1 h2 h3 h4 h5 h6]
  exact ⟨rfl, rfl, rfl⟩

/-- C7 witness: with no registered types, the concrete module's mask is
zero and it is discarded with its handle closed. -/
theorem c7_zero_type_discard_witness :
    (scan_file env_ok [] "d" plugin_load_failure_mode.DONT_REPORT_LOAD_FAILURE
        initState "a.so").plugin_list = initState.plugin_list
    ∧ (scan_file env_ok [] "d" plugin_load_failure_mode.DONT_REPORT_LOAD_FAILURE
        initState "a.so").closed = initState.closed ++ [1]
    ∧ (scan_file env_ok [] "d" plugin_load_failure_mode.DONT_REPORT_LOAD_FAILURE
        initState "a.so").freed
        = initState.freed ++ [candidate_plugin [] "a.so" 1 "1.0"] :=
  c7_zero_type_discard env_ok [] "d" plugin_load_failure_mode.DONT_REPORT_LOAD_FAILURE
    initState "a.so" 1 "1.0"
    (by decide) (by decide) (by decide) (by decide) (by decide) (by decide)

/-- C8: when the process started with special privileges, the personal
plugin directory is never handed to `plugins_scan_dir` (given that it
was not already in the call trace and does not coincide with any of the
global scan paths); by contraposition it is scanned only by a process
that did not start with special privileges. -/
theorem c8_personal_dir_privilege_gating (env : Env) (types : List PluginType)
    (mode : plugin_load_failure_mode) (st : ScanState)
    (hpriv : env.started_with_special_privs = true)
    (h1 : env.get_plugins_pers_dir_with_version ∉ st.calls)
    (h2 : env.get_plugins_pers_dir_with_version ∉ global_scan_dirs env) :
    env.get_plugins_pers_dir_with_version ∉ (scan_plugins env types mode st).calls := by
  rw [scan_plugins_calls]
  by_cases h : st.plugin_list = []
  · rw [if_pos h]
    intro hmem
    rcases List.mem_append.mp hmem with hl | hr
    · exact h1 hl
    · unfold scan_dirs at hr
      cases hd : env.get_plugins_dir with
      | none => rw [hd] at hr; simp at hr
      | some plugin_dir =>
        rw [hd] at hr
        simp only [hpriv, if_true, List.append_nil] at hr
        exact h2 hr
  · rw [if_neg h]
    simp only [List.append_nil]
    exact h1

/-- C8 witness: a privileged process with the concrete environment never
hands `uv` (the personal directory) to the scanner. -/
theorem c8_personal_dir_privilege_gating_witness :
    ("uv" : String) ∉ (scan_plugins env_priv []
        plugin_load_failure_mode.REPORT_LOAD_FAILURE initState).calls :=
  c8_personal_dir_privilege_gating env_priv []
    plugin_load_failure_mode.REPORT_LOAD_FAILURE initState
    (by decide) (by decide) (by decide)

/-- C9: with environment (filesystem, path resolution, privileges) and
registered types fixed, running `scan_plugins` twice leaves the registry
with exactly the contents (same plugins, same order) of running it
once. -/
theorem c9_scan_plugins_idempotent (env : Env) (types : List PluginType)
    (mode : plugin_load_failure_mode) (st : ScanState) :
    (scan_plugins env types mode (scan_plugins env types mode st)).plugin_list
      = (scan_plugins env types mode st).plugin_list := by
  by_cases h : st.plugin_list = []
  · by_cases h2 : (scan_plugins env types mode st).plugin_list = []
    · rw [scan_plugins_plugin_list env types mode (scan_plugins env types mode st),
        if_pos h2]
      have key : scan_body_pl env types ([] : List Plugin) = [] := by
        have hlem := scan_plugins_plugin_list env types mode st
        rw [if_pos h, h] at hlem
        rw [← hlem]
        exact h2
      rw [h2]
      exact key
    · rw [scan_plugins_plugin_list env types mode (scan_plugins env types mode st),
        if_neg h2]
  · have hfix : scan_plugins env types mode st = st := by
      unfold scan_plugins
      rw [if_neg h]
    rw [hfix]
    rw [hfix]

/-- C10: `plugins_cleanup` leaves the `plugin_list` and `plugin_types`
head pointers at their pre-cleanup values (nothing in the interface
resets them), so a `scan_plugins` call after cleanup of a non-empty
registry still sees a non-empty registry and performs no rescan. -/
theorem c10_cleanup_keeps_registry_heads (pl : List Plugin) (pt : List PluginType)
    (env : Env) (mode : plugin_load_failure_mode) (hne : pl ≠ []) :
    (plugins_cleanup pl pt).plugin_list = pl
    ∧ (plugins_cleanup pl pt).plugin_types = pt
    ∧ ∀ st : ScanState, st.plugin_list = (plugins_cleanup pl pt).plugin_list →
        scan_plugins env (plugins_cleanup pl pt).plugin_types mode st = st := by
  refine ⟨rfl, rfl, ?_⟩
  intro st hst
  unfold scan_plugins
  rw [if_neg]
  rw [hst]
  exact hne

/-- C10 witness: after cleanup of a concrete one-plugin registry, a
further `scan_plugins` call is a no-op. -/
theorem c10_cleanup_keeps_registry_heads_witness :
    scan_plugins env_empty
        (plugins_cleanup [{ handle := 3, name := "n", version := "1", types := 1 }]
          []).plugin_types
        plugin_load_failure_mode.REPORT_LOAD_FAILURE
        { plugin_list :=
            (plugins_cleanup [{ handle := 3, name := "n", version := "1", types := 1 }]
              []).plugin_list
          reports := [], closed := [], freed := [], calls := [] }
      = { plugin_list :=
            (plugins_cleanup [{ handle := 3, name := "n", version := "1", types := 1 }]
              []).plugin_list
          reports := [], closed := [], freed := [], calls := [] } :=
  (c10_cleanup_keeps_registry_heads
      [{ handle := 3, name := "n", version := "1", types := 1 }] [] env_empty
      plugin_load_failure_mode.REPORT_LOAD_FAILURE (by decide)).2.2 _ rfl
